import Mathlib

/-!
Shallow embedding of the audio-backend WebSocket relay (src/main.py,
src/gcs_utils.py) and proofs of the specification claims.

The embedding translates the control flow of `websocket_endpoint`
(src/main.py lines 51-227), its two pump tasks `handle_user_input_task`
(lines 132-161) and `receive_responses_task` (lines 164-184), and the
persistence helper `upload_to_gcs` (src/gcs_utils.py lines 13-38).
External effects (socket receive results, upstream connect success,
GCS outcomes) are supplied as explicit scenario data; the code's
branching, exception routing and ordering are translated faithfully.
-/

namespace AudioRelay

/-- Bytes are modelled as values in Fin 256 (Python bytes objects). -/
abbrev Byte := Fin 256

/-! ## Base64 (model of Python base64.b64encode / b64decode, standard alphabet)

`handle_user_input_task` (main.py line 142) applies
base64.b64encode followed by a utf-8 text decode before forwarding audio to the
upstream session.  We model the standard RFC 4648 encoding. -/

/-- Character of the standard base64 alphabet at index n (A-Z a-z 0-9 + /). -/
def b64CharOf (n : Nat) : Char :=
  if n < 26 then Char.ofNat (65 + n)
  else if n < 52 then Char.ofNat (97 + (n - 26))
  else if n < 62 then Char.ofNat (48 + (n - 52))
  else if n = 62 then '+' else '/'

/-- Index of a character in the standard base64 alphabet. -/
def b64ValOf (c : Char) : Nat :=
  if 65 ≤ c.toNat ∧ c.toNat ≤ 90 then c.toNat - 65
  else if 97 ≤ c.toNat ∧ c.toNat ≤ 122 then 26 + (c.toNat - 97)
  else if 48 ≤ c.toNat ∧ c.toNat ≤ 57 then 52 + (c.toNat - 48)
  else if c = '+' then 62 else 63

/-- Base64-encode a byte sequence, three bytes to four characters,
with '=' padding, as Python base64.b64encode does. -/
def b64Groups : List Nat → List Char
  | [] => []
  | [a] => [b64CharOf (a / 4), b64CharOf ((a % 4) * 16), '=', '=']
  | [a, b] => [b64CharOf (a / 4), b64CharOf ((a % 4) * 16 + b / 16),
               b64CharOf ((b % 16) * 4), '=']
  | a :: b :: c :: rest =>
      b64CharOf (a / 4) :: b64CharOf ((a % 4) * 16 + b / 16) ::
      b64CharOf ((b % 16) * 4 + c / 64) :: b64CharOf (c % 64) :: b64Groups rest

/-- Base64-decode, the inverse of b64Groups on well-formed input. -/
def b64DecGroups : List Char → List Nat
  | c1 :: c2 :: c3 :: c4 :: rest =>
      if c3 = '=' then
        [b64ValOf c1 * 4 + b64ValOf c2 / 16]
      else if c4 = '=' then
        [b64ValOf c1 * 4 + b64ValOf c2 / 16,
         b64ValOf c2 % 16 * 16 + b64ValOf c3 / 4]
      else
        (b64ValOf c1 * 4 + b64ValOf c2 / 16) ::
        (b64ValOf c2 % 16 * 16 + b64ValOf c3 / 4) ::
        (b64ValOf c3 % 4 * 64 + b64ValOf c4) :: b64DecGroups rest
  | _ => []

/-- The string sent to the upstream handle for a raw audio chunk
(main.py line 142). -/
def b64encodeStr (d : List Byte) : String := ⟨b64Groups (d.map Fin.val)⟩

/-- Decoding of a base64 string back to byte values. -/
def b64decodeStr (s : String) : List Nat := b64DecGroups s.data

theorem b64ValOf_b64CharOf (n : Nat) (h : n < 64) : b64ValOf (b64CharOf n) = n := by
  have key : ∀ m : Fin 64, b64ValOf (b64CharOf m.val) = m.val := by decide
  exact key ⟨n, h⟩

theorem b64CharOf_ne_pad (n : Nat) (h : n < 64) : b64CharOf n ≠ '=' := by
  have key : ∀ m : Fin 64, b64CharOf m.val ≠ '=' := by decide
  exact key ⟨n, h⟩

/-- Round trip: decoding an encoded byte list recovers the byte values. -/
theorem b64_roundtrip : ∀ l : List Byte, b64DecGroups (b64Groups (l.map Fin.val)) = l.map Fin.val
  | [] => by simp [b64Groups, b64DecGroups]
  | [a] => by
      have ha := a.isLt
      have h1 : b64ValOf (b64CharOf ((a : Nat) / 4)) = (a : Nat) / 4 :=
        b64ValOf_b64CharOf _ (by omega)
      have h2 : b64ValOf (b64CharOf ((a : Nat) % 4 * 16)) = (a : Nat) % 4 * 16 :=
        b64ValOf_b64CharOf _ (by omega)
      simp [b64Groups, b64DecGroups, h1, h2] <;> omega
  | [a, b] => by
      have ha := a.isLt
      have hb := b.isLt
      have h1 : b64ValOf (b64CharOf ((a : Nat) / 4)) = (a : Nat) / 4 :=
        b64ValOf_b64CharOf _ (by omega)
      have h2 : b64ValOf (b64CharOf ((a : Nat) % 4 * 16 + (b : Nat) / 16)) =
          (a : Nat) % 4 * 16 + (b : Nat) / 16 := b64ValOf_b64CharOf _ (by omega)
      have h3 : b64ValOf (b64CharOf ((b : Nat) % 16 * 4)) = (b : Nat) % 16 * 4 :=
        b64ValOf_b64CharOf _ (by omega)
      have hne : b64CharOf ((b : Nat) % 16 * 4) ≠ '=' := b64CharOf_ne_pad _ (by omega)
      simp [b64Groups, b64DecGroups, h1, h2, h3, hne] <;> omega
  | a :: b :: c :: rest => by
      have ha := a.isLt
      have hb := b.isLt
      have hc := c.isLt
      have ih := b64_roundtrip rest
      have h1 : b64ValOf (b64CharOf ((a : Nat) / 4)) = (a : Nat) / 4 :=
        b64ValOf_b64CharOf _ (by omega)
      have h2 : b64ValOf (b64CharOf ((a : Nat) % 4 * 16 + (b : Nat) / 16)) =
          (a : Nat) % 4 * 16 + (b : Nat) / 16 := b64ValOf_b64CharOf _ (by omega)
      have h3 : b64ValOf (b64CharOf ((b : Nat) % 16 * 4 + (c : Nat) / 64)) =
          (b : Nat) % 16 * 4 + (c : Nat) / 64 := b64ValOf_b64CharOf _ (by omega)
      have h4 : b64ValOf (b64CharOf ((c : Nat) % 64)) = (c : Nat) % 64 :=
        b64ValOf_b64CharOf _ (by omega)
      have hne1 : b64CharOf ((b : Nat) % 16 * 4 + (c : Nat) / 64) ≠ '=' :=
        b64CharOf_ne_pad _ (by omega)
      have hne2 : b64CharOf ((c : Nat) % 64) ≠ '=' := b64CharOf_ne_pad _ (by omega)
      simp [b64Groups, b64DecGroups, h1, h2, h3, h4, hne1, hne2, ih] <;> omega

/-! ## Inbound client messages

`websocket.receive()` yields either a text frame or a binary frame, or
raises (`WebSocketDisconnect` on client disconnect, something else on
transport errors).  A received text frame is then passed to
`json.loads(...)`: decoding either fails (malformed payload) or yields an
object whose "type" and "payload" entries we record (absent entries are
`none`, matching dict.get). -/

/-- Result of decoding a received text frame. -/
inductive TextMsg
  /-- json.loads raises (malformed payload, or payload not an object so
  that the later attribute access raises). -/
  | malformed
  /-- A decoded JSON object with its optional "type" and "payload" fields. -/
  | structuredMsg (ty : Option String) (payload : Option String)
deriving DecidableEq

/-- One outcome of awaiting `websocket.receive()`. -/
inductive ClientEvent
  /-- A text frame, together with its JSON decoding outcome. -/
  | textMsg (m : TextMsg)
  /-- A binary frame carrying raw audio bytes. -/
  | binaryMsg (data : List Byte)
  /-- receive() raises WebSocketDisconnect. -/
  | disconnect
  /-- receive() raises some other exception. -/
  | recvError
deriving DecidableEq

/-! ## Idle loop (AWAITING_START), main.py lines 65-87 -/

/-- How the idle `while True` loop at main.py line 65 ends. -/
inductive IdleOutcome
  /-- A start_call control message was received: break at line 75, session setup follows. -/
  | gotStart
  /-- WebSocketDisconnect: logged and `return` at line 84. -/
  | disconnected
  /-- Any other exception (including json.JSONDecodeError from line 70):
  logged and `return` at line 87. -/
  | errored
  /-- The event list ran out: the loop is still blocked in receive(). -/
  | stillWaiting
deriving DecidableEq

/-- The idle loop of `websocket_endpoint` (main.py lines 65-87): non-start
structured messages and binary frames are logged and skipped; a malformed
payload raises json.JSONDecodeError, caught by `except Exception` at line
85 which logs and returns. -/
def idleRun : List ClientEvent → IdleOutcome
  | [] => .stillWaiting
  | .textMsg .malformed :: _ => .errored
  | .textMsg (.structuredMsg ty _) :: rest =>
      if ty = some "start_call" then .gotStart else idleRun rest
  | .binaryMsg _ :: rest => idleRun rest
  | .disconnect :: _ => .disconnected
  | .recvError :: _ => .errored

/-! ## Uplink task (handle_user_input_task), main.py lines 132-161 -/

/-- One payload handed to `session.send` (data string plus mime type). -/
structure UpMsg where
  payload : String
  mime : String
deriving DecidableEq

/-- How `handle_user_input_task` ends. -/
inductive UplinkExit
  /-- An audio_stream_end signal was received: break at line 159 (clean shutdown). -/
  | cleanEnd
  /-- WebSocketDisconnect caught at line 160: the task returns normally. -/
  | disconnected
  /-- An uncaught exception (json.JSONDecodeError from line 146, KeyError
  from line 152, or a receive error) terminates the task; asyncio stores
  it and `websocket_endpoint` re-raises it at line 192. -/
  | taskError
  /-- The event list ran out: the task is still blocked in receive(). -/
  | stillStreaming
deriving DecidableEq

/-- Result of running the uplink task on a list of received events:
the bytes appended to the user Recording Sink, the payloads sent to the
upstream handle, the exit mode, and the events actually consumed. -/
structure UplinkResult where
  sink : List Byte
  sent : List UpMsg
  exit : UplinkExit
  consumed : List ClientEvent
deriving DecidableEq

/-- Model of handle_user_input_task (main.py lines 132-161).  A binary frame is
written raw to the user sink (line 139) and forwarded base64-encoded with
mime audio/pcm;rate=16000 (lines 142-143); a `video_frame` message
forwards its payload string unmodified with mime image/jpeg (line 155);
`audio_stream_end` breaks out; other structured types are ignored; a
malformed payload or a missing video payload raises out of the task. -/
def uplinkRun : List ClientEvent → UplinkResult
  | [] => ⟨[], [], .stillStreaming, []⟩
  | e :: rest =>
    match e with
    | .binaryMsg d =>
        let r := uplinkRun rest
        ⟨d ++ r.sink, ⟨b64encodeStr d, "audio/pcm;rate=16000"⟩ :: r.sent, r.exit, e :: r.consumed⟩
    | .textMsg .malformed => ⟨[], [], .taskError, [e]⟩
    | .textMsg (.structuredMsg ty payload) =>
        if ty = some "video_frame" then
          match payload with
          | some p =>
              let r := uplinkRun rest
              ⟨r.sink, ⟨p, "image/jpeg"⟩ :: r.sent, r.exit, e :: r.consumed⟩
          | none => ⟨[], [], .taskError, [e]⟩
        else if ty = some "audio_stream_end" then ⟨[], [], .cleanEnd, [e]⟩
        else
          let r := uplinkRun rest
          ⟨r.sink, r.sent, r.exit, e :: r.consumed⟩
    | .disconnect => ⟨[], [], .disconnected, [e]⟩
    | .recvError => ⟨[], [], .taskError, [e]⟩

/-- The binary payload of a client event, if it is a binary frame. -/
def binPayload : ClientEvent → Option (List Byte)
  | .binaryMsg d => some d
  | _ => none

/-! ## Downlink task (receive_responses_task), main.py lines 164-184

Each upstream response unit optionally carries a user-speech
transcription fragment (`response.user_utterance.output_transcription
.text`, guarded by hasattr and truthiness at line 170), synthesized
audio bytes (`response.data`, truthiness-guarded at line 173), and a
provider-speech transcription fragment (`response.server_content
.output_transcription.text`, truthiness-guarded at line 177).  A `none`
field models any falsy link in the attribute chain.  `session.receive()`
yields one finite sequence of units per turn; the enclosing `while True`
loop processes turns in sequence, resetting `full_gemini_transcript` to
the empty string at line 167 before each turn. -/

/-- One upstream response unit (main.py lines 168-180, spec design note:
three independently optional fields). -/
structure RespUnit where
  userT : Option String
  audioData : Option (List Byte)
  outT : Option String
deriving DecidableEq

/-- One message sent to the client by the downlink task. -/
inductive OutMsg
  /-- send_json user_transcript (main.py line 171); the text is stripped. -/
  | userTranscript (text : String)
  /-- send_bytes of the raw response audio (main.py line 175). -/
  | binaryAudio (data : List Byte)
  /-- send_json gemini_chunk (main.py line 180); one per fragment. -/
  | geminiChunk (text : String)
deriving DecidableEq

/-- Messages emitted for one response unit, in the code's order
(user transcript, then audio, then provider chunk). -/
def unitMsgs (u : RespUnit) : List OutMsg :=
  (match u.userT with
   | some t => if t = "" then [] else [.userTranscript t.trim]
   | none => []) ++
  (match u.audioData with
   | some d => if d = [] then [] else [.binaryAudio d]
   | none => []) ++
  (match u.outT with
   | some t => if t = "" then [] else [.geminiChunk t]
   | none => [])

/-- Bytes appended to the provider Recording Sink for one unit
(main.py line 174; skipped when `response.data` is falsy). -/
def unitAudio (u : RespUnit) : List Byte :=
  match u.audioData with
  | some d => if d = [] then [] else d
  | none => []

/-- The provider-transcript fragment contributed by one unit to the
turn accumulator (main.py line 179; empty when the field is falsy). -/
def unitFrag (u : RespUnit) : String :=
  match u.outT with
  | some t => if t = "" then "" else t
  | none => ""

/-- Processing of one turn's response units (the `async for` at main.py
line 168): client messages sent, sink bytes written, and the final value
of `full_gemini_transcript`. -/
def processUnits : List RespUnit → List OutMsg × List Byte × String
  | [] => ([], [], "")
  | u :: r =>
      let s := processUnits r
      (unitMsgs u ++ s.1, unitAudio u ++ s.2.1, unitFrag u ++ s.2.2)

/-- Result of the downlink task over a list of turns. -/
structure DownResult where
  sent : List OutMsg
  sink : List Byte
  logs : List String
deriving DecidableEq

/-- Model of receive_responses_task (main.py lines 164-184) over a sequence of
turns: after each turn, the accumulated transcript is logged stripped if
non-empty (lines 181-182), and the accumulator is reset for the next
turn (line 167). -/
def downlinkRun : List (List RespUnit) → DownResult
  | [] => ⟨[], [], []⟩
  | t :: r =>
      let p := processUnits t
      let d := downlinkRun r
      ⟨p.1 ++ d.sent, p.2.1 ++ d.sink,
       (if p.2.2 = "" then [] else [p.2.2.trim]) ++ d.logs⟩

/-- The audio payload a response unit contributes to the provider sink
per the claim's reading: the raw bytes of an audio-bearing unit. -/
def audioPayload (u : RespUnit) : List Byte := u.audioData.getD []

/-- The provider-transcript fragments of one unit, as a list
(empty or a singleton). -/
def fragList (u : RespUnit) : List String :=
  match u.outT with
  | some t => if t = "" then [] else [t]
  | none => []

/-- All fragments of one turn, in order. -/
def turnFrags (ts : List RespUnit) : List String := (ts.map fragList).flatten

/-- Concatenation of one turn's fragments. -/
def turnConcat (ts : List RespUnit) : String := (turnFrags ts).foldr (· ++ ·) ""

/-- The texts of the gemini_chunk messages in a message list, in order. -/
def chunkTexts : List OutMsg → List String
  | [] => []
  | .geminiChunk t :: r => t :: chunkTexts r
  | _ :: r => chunkTexts r

/-! ## Persistence dispatch (src/gcs_utils.py) -/

/-- What happens inside the guarded upload attempt of `upload_to_gcs`
(gcs_utils.py lines 21-38): it succeeds, or raises one of the three
caught exception classes. -/
inductive GcsEvent
  | success
  | fileNotFound
  | apiError
  | otherError
deriving DecidableEq

/-- Python truthiness of the optional GCS_BUCKET_NAME setting
(None and the empty string are falsy). -/
def bucketTruthy (bucketName : Option String) : Bool := bucketName.getD "" ≠ ""

/-- Model of upload_to_gcs (gcs_utils.py lines 13-38): it returns False when the
storage client or bucket name is unconfigured; otherwise returns True on
success and False on any of the caught exceptions.  It never raises. -/
def upload_to_gcs (clientOk : Bool) (bucketName : Option String) (ev : GcsEvent) : Bool :=
  if !clientOk || !bucketTruthy bucketName then false
  else
    match ev with
    | .success => true
    | _ => false

/-! ## The connection handler (websocket_endpoint), main.py lines 51-227

The handler's externally visible effects are modelled as a trace of
actions generated by a straight-line translation of its control flow.
Scenario data supplies the outcomes of external calls (socket events,
upstream connect, GCS results). -/

/-- Direction of a Recording Sink. -/
inductive Dir
  | user
  | gemini
deriving DecidableEq

/-- The fixed wave parameters set at main.py lines 106 and 109. -/
structure SinkFormat where
  nchannels : Nat
  sampwidth : Nat
  framerate : Nat
deriving DecidableEq

/-- Format of the user sink (main.py line 106). -/
def userFmt : SinkFormat := ⟨1, 2, 16000⟩

/-- Format of the provider sink (main.py line 109). -/
def geminiFmt : SinkFormat := ⟨1, 2, 24000⟩

/-- How the duplex pump (main.py lines 186-192) ends. -/
inductive PumpEnd
  /-- The uplink task returned after `audio_stream_end` or a caught
  disconnect; no stored exception, so line 192 raises nothing. -/
  | cleanEnd
  /-- A task finished first holding an exception that originated in the
  uplink side; re-raised at line 192. -/
  | uplinkError
  /-- A task finished first holding an exception from the downlink side
  (e.g. the upstream stream failed); re-raised at line 192. -/
  | downlinkError
deriving DecidableEq

/-- Externally visible steps of `websocket_endpoint`, in program order. -/
inductive Action
  /-- ACTIVE_CONNECTIONS.add (main.py line 55). -/
  | admitConn (cid : String)
  /-- websocket.accept() returns (line 60). -/
  | acceptConn
  /-- Entry into the AWAITING_START read loop (line 65). -/
  | enterIdle
  /-- ACTIVE_GEMINI_SESSIONS.add (line 91). -/
  | registerSession (sid : String)
  /-- wave.open creating a sink file (lines 105 and 108). -/
  | openSink (d : Dir) (fmt : SinkFormat)
  /-- client.aio.live.connect succeeded (line 126). -/
  | connectUpstream
  /-- send_json call_started (line 129). -/
  | sendCallStarted
  /-- The duplex pump runs (lines 186-192). -/
  | enterStreaming
  /-- The upstream handle is released on leaving the async-with block. -/
  | closeUpstream
  /-- The `except Exception` handler at line 194 logs the session error. -/
  | logSessionError
  /-- ACTIVE_GEMINI_SESSIONS.discard (line 197). -/
  | retireSession (sid : String)
  /-- wav writer close (lines 200-201). -/
  | closeSink (d : Dir)
  /-- upload_to_gcs call, with destination name and result (205, 207). -/
  | dispatch (d : Dir) (blobDest : String) (ok : Bool)
  /-- os.remove of a local recording (lines 206 and 208). -/
  | removeLocalFile (d : Dir)
  /-- The send_json call_ended attempt at line 211, and whether it
  succeeded. -/
  | sendCallEnded (ok : Bool)
  /-- The outer `except Exception` handler at line 219 logs an
  unhandled endpoint error. -/
  | logEndpointError
  /-- ACTIVE_CONNECTIONS.discard in the outer finally (line 222). -/
  | retireConn (cid : String)
deriving DecidableEq

/-- Zero-pad a number to two digits (strftime %m, %d). -/
def pad2 (n : Nat) : String := if n < 10 then "0" ++ toString n else toString n

/-- Zero-pad a number to four digits (strftime %Y). -/
def pad4 (n : Nat) : String :=
  if n < 10 then "000" ++ toString n
  else if n < 100 then "00" ++ toString n
  else if n < 1000 then "0" ++ toString n
  else toString n

/-- A calendar date as captured by datetime.now() at session start. -/
structure CallDate where
  year : Nat
  month : Nat
  day : Nat
deriving DecidableEq

/-- One complete environment for a run of `websocket_endpoint`:
identifiers, external call outcomes, and configuration. -/
structure Scenario where
  /-- connection_id (line 54). -/
  cid : String
  /-- session_id (line 72). -/
  sid : String
  /-- Whether websocket.accept() at line 60 returns normally. -/
  acceptOk : Bool
  /-- The events received by the idle loop. -/
  idleEvents : List ClientEvent
  /-- The date used in the blob folder (line 97). -/
  date : CallDate
  /-- settings.GCS_BUCKET_NAME. -/
  gcsBucket : Option String
  /-- Whether the two wave.open calls at lines 105 and 108 succeed. -/
  sinkOpenOk : Bool
  /-- Whether client.aio.live.connect at line 126 succeeds. -/
  connectOk : Bool
  /-- How the duplex pump ends when streaming runs. -/
  pumpEnd : PumpEnd
  /-- Whether the module-level GCS storage client initialized
  (gcs_utils.py lines 7-11). -/
  gcsClientOk : Bool
  /-- Outcome of the guarded upload of the user recording. -/
  userGcsEv : GcsEvent
  /-- Outcome of the guarded upload of the provider recording. -/
  geminiGcsEv : GcsEvent
  /-- Whether send_json call_ended at line 211 returns normally. -/
  sendEndOk : Bool
deriving DecidableEq

/-- The blob folder computed at main.py line 97. -/
def blobFolderOf (s : Scenario) : String :=
  "calls/" ++ pad4 s.date.year ++ "/" ++ pad2 s.date.month ++ "/" ++
    pad2 s.date.day ++ "/" ++ s.sid ++ "/"

/-- Destination blob name for one direction (main.py lines 205 and 207). -/
def blobDestOf (s : Scenario) : Dir → String
  | .user => blobFolderOf s ++ "user.wav"
  | .gemini => blobFolderOf s ++ "gemini.wav"

/-- The streaming section (main.py lines 126-195): on connect success the
pump runs inside the async-with; an exception from connect or from the
pump is caught and logged by the `except Exception` at line 194. -/
def streamTrace (s : Scenario) : List Action :=
  if s.connectOk then
    [.connectUpstream, .sendCallStarted, .enterStreaming, .closeUpstream] ++
    (match s.pumpEnd with
     | .cleanEnd => []
     | _ => [.logSessionError])
  else [.logSessionError]

/-- The finalization block (the `finally` at main.py lines 196-215):
retire the session id, close both sinks, then if a blob folder was
configured dispatch each recording and delete the local file only on
success, then attempt the call_ended notification. -/
def finalizeTrace (s : Scenario) : List Action :=
  let u := upload_to_gcs s.gcsClientOk s.gcsBucket s.userGcsEv
  let g := upload_to_gcs s.gcsClientOk s.gcsBucket s.geminiGcsEv
  [.retireSession s.sid, .closeSink .user, .closeSink .gemini] ++
  (if bucketTruthy s.gcsBucket then
    [.dispatch .user (blobDestOf s .user) u] ++
    (if u then [.removeLocalFile .user] else []) ++
    [.dispatch .gemini (blobDestOf s .gemini) g] ++
    (if g then [.removeLocalFile .gemini] else [])
  else []) ++
  [.sendCallEnded s.sendEndOk]

/-- The full action trace of `websocket_endpoint` (main.py lines 51-227)
for one scenario.  When accept() raises (line 60, before the outer try),
the handler unwinds without retiring the connection id.  When wave.open
raises (line 105/108, after the session id is registered but before the
inner try at line 125), the outer except/finally runs but the inner
finally does not.  Whether or not the call_ended send at line 211
succeeds, control leaves the outer try (normally, or through the
re-raised WebSocketDisconnect caught at line 217) and the outer finally
retires the connection id; the handler then returns. -/
def endpointTrace (s : Scenario) : List Action :=
  [.admitConn s.cid] ++
  if !s.acceptOk then []
  else
    [.acceptConn, .enterIdle] ++
    match idleRun s.idleEvents with
    | .disconnected => [.retireConn s.cid]
    | .errored => [.retireConn s.cid]
    | .stillWaiting => []
    | .gotStart =>
        [.registerSession s.sid] ++
        if !s.sinkOpenOk then [.logEndpointError, .retireConn s.cid]
        else
          [.openSink .user userFmt, .openSink .gemini geminiFmt] ++
          streamTrace s ++ finalizeTrace s ++ [.retireConn s.cid]

/-! ## Registry state (ACTIVE_CONNECTIONS / ACTIVE_GEMINI_SESSIONS) -/

/-- The two process-wide id sets (main.py lines 26-28). -/
structure RegState where
  conns : Finset String
  gems : Finset String
deriving DecidableEq

/-- Effect of one action on the registries: set add / set discard
semantics (discard of an absent element is a no-op). -/
def applyAction (st : RegState) : Action → RegState
  | .admitConn c => ⟨insert c st.conns, st.gems⟩
  | .retireConn c => ⟨st.conns.erase c, st.gems⟩
  | .registerSession i => ⟨st.conns, insert i st.gems⟩
  | .retireSession i => ⟨st.conns, st.gems.erase i⟩
  | _ => st

/-- Registry state after a trace. -/
def runReg (init : RegState) (tr : List Action) : RegState :=
  tr.foldl applyAction init

/-- Count of trace actions satisfying a predicate. -/
def countA (p : Action → Bool) (tr : List Action) : Nat := tr.countP p

def isCloseSink (d : Dir) : Action → Bool
  | .closeSink e => e == d
  | _ => false

def isOpenSink (d : Dir) : Action → Bool
  | .openSink e _ => e == d
  | _ => false

def isDispatch (d : Dir) : Action → Bool
  | .dispatch e _ _ => e == d
  | _ => false

def isRemove (d : Dir) : Action → Bool
  | .removeLocalFile e => e == d
  | _ => false

def isRetireSession : Action → Bool
  | .retireSession _ => true
  | _ => false

def isSendCallEnded : Action → Bool
  | .sendCallEnded _ => true
  | _ => false

def isEnterIdle : Action → Bool
  | .enterIdle => true
  | _ => false

def isRegisterSession : Action → Bool
  | .registerSession _ => true
  | _ => false

def isRetireConn : Action → Bool
  | .retireConn _ => true
  | _ => false

def isConnectUp : Action → Bool
  | .connectUpstream => true
  | _ => false

/-! ## Helper lemmas about the trace -/

theorem finalize_counts (s : Scenario) :
    countA (isCloseSink .user) (finalizeTrace s) = 1 ∧
    countA (isCloseSink .gemini) (finalizeTrace s) = 1 ∧
    countA isRetireSession (finalizeTrace s) = 1 ∧
    countA isSendCallEnded (finalizeTrace s) = 1 ∧
    (bucketTruthy s.gcsBucket = true →
      countA (isDispatch .user) (finalizeTrace s) = 1 ∧
      countA (isDispatch .gemini) (finalizeTrace s) = 1) := by
  unfold finalizeTrace countA
  cases hu : upload_to_gcs s.gcsClientOk s.gcsBucket s.userGcsEv <;>
  cases hg : upload_to_gcs s.gcsClientOk s.gcsBucket s.geminiGcsEv <;>
  cases hb : bucketTruthy s.gcsBucket <;>
  simp [isCloseSink, isRetireSession, isSendCallEnded, isDispatch]

theorem stream_counts (s : Scenario) :
    countA (isCloseSink .user) (streamTrace s) = 0 ∧
    countA (isCloseSink .gemini) (streamTrace s) = 0 ∧
    countA isRetireSession (streamTrace s) = 0 ∧
    countA isSendCallEnded (streamTrace s) = 0 ∧
    countA (isDispatch .user) (streamTrace s) = 0 ∧
    countA (isDispatch .gemini) (streamTrace s) = 0 := by
  unfold streamTrace countA
  cases s.connectOk <;> cases s.pumpEnd <;>
  simp [isCloseSink, isRetireSession, isSendCallEnded, isDispatch]

theorem aux_zero_counts (s : Scenario) :
    countA isEnterIdle (streamTrace s) = 0 ∧
    countA isEnterIdle (finalizeTrace s) = 0 ∧
    countA isRegisterSession (streamTrace s) = 0 ∧
    countA isRegisterSession (finalizeTrace s) = 0 ∧
    countA isRetireConn (streamTrace s) = 0 ∧
    countA isRetireConn (finalizeTrace s) = 0 ∧
    countA (isOpenSink .user) (streamTrace s) = 0 ∧
    countA (isOpenSink .user) (finalizeTrace s) = 0 ∧
    countA (isOpenSink .gemini) (streamTrace s) = 0 ∧
    countA (isOpenSink .gemini) (finalizeTrace s) = 0 ∧
    countA isConnectUp (finalizeTrace s) = 0 := by
  unfold streamTrace finalizeTrace countA
  cases s.connectOk <;> cases s.pumpEnd <;>
  cases hu : upload_to_gcs s.gcsClientOk s.gcsBucket s.userGcsEv <;>
  cases hg : upload_to_gcs s.gcsClientOk s.gcsBucket s.geminiGcsEv <;>
  cases hb : bucketTruthy s.gcsBucket <;>
  simp [isEnterIdle, isRegisterSession, isRetireConn, isOpenSink, isConnectUp]

/-! ## Claim theorems -/

/-- C1: for every session that reaches the STREAMING state, finalization
runs exactly once on every exit path (normal completion, uplink or
downlink task failure, upstream error, client disconnect): each of the
two Recording Sinks is closed exactly once, persistence dispatch is
attempted for both recordings when a bucket is configured, the session id
is retired from the active-sessions registry exactly once, and a
call_ended notification is attempted exactly once. -/
theorem c1_finalization_exactly_once (s : Scenario)
    (hA : s.acceptOk = true) (hI : idleRun s.idleEvents = .gotStart)
    (hS : s.sinkOpenOk = true) (hC : s.connectOk = true) :
    countA (isCloseSink .user) (endpointTrace s) = 1 ∧
    countA (isCloseSink .gemini) (endpointTrace s) = 1 ∧
    countA isRetireSession (endpointTrace s) = 1 ∧
    countA isSendCallEnded (endpointTrace s) = 1 ∧
    (bucketTruthy s.gcsBucket = true →
      countA (isDispatch .user) (endpointTrace s) = 1 ∧
      countA (isDispatch .gemini) (endpointTrace s) = 1) := by
  have hf := finalize_counts s
  have hs := stream_counts s
  unfold endpointTrace
  rw [hA, hI, hS]
  simp only [countA, List.countP_append, List.countP_cons] at *
  simp [isCloseSink, isRetireSession, isSendCallEnded, isDispatch,
        hf.1, hf.2.1, hf.2.2.1, hf.2.2.2.1, hs.1, hs.2.1, hs.2.2.1,
        hs.2.2.2.1, hs.2.2.2.2.1, hs.2.2.2.2.2]
  intro hb
  have := hf.2.2.2.2 hb
  omega

/-- Witness for c1_finalization_exactly_once at a concrete scenario. -/
def scnC1 : Scenario :=
  ⟨"conn-1", "call-1", true,
   [ClientEvent.textMsg (TextMsg.structuredMsg (some "start_call") none)],
   ⟨2026, 10, 12⟩, some "bucket", true, true, PumpEnd.cleanEnd,
   true, GcsEvent.success, GcsEvent.apiError, true⟩

theorem c1_finalization_exactly_once_witness :
    scnC1.acceptOk = true ∧ idleRun scnC1.idleEvents = .gotStart ∧
    scnC1.sinkOpenOk = true ∧ scnC1.connectOk = true ∧
    (countA (isCloseSink .user) (endpointTrace scnC1) = 1 ∧
     countA (isCloseSink .gemini) (endpointTrace scnC1) = 1 ∧
     countA isRetireSession (endpointTrace scnC1) = 1 ∧
     countA isSendCallEnded (endpointTrace scnC1) = 1 ∧
     (bucketTruthy scnC1.gcsBucket = true →
       countA (isDispatch .user) (endpointTrace scnC1) = 1 ∧
       countA (isDispatch .gemini) (endpointTrace scnC1) = 1)) :=
  ⟨rfl, by decide, rfl, rfl,
   c1_finalization_exactly_once scnC1 rfl (by decide) rfl rfl⟩

/-- Scenario whose idle phase receives a malformed payload first and a
valid start_call afterwards. -/
def scnC2 : Scenario :=
  ⟨"conn-2", "call-2", true,
   [ClientEvent.textMsg TextMsg.malformed,
    ClientEvent.textMsg (TextMsg.structuredMsg (some "start_call") none)],
   ⟨2026, 10, 12⟩, none, true, true, PumpEnd.cleanEnd,
   false, GcsEvent.success, GcsEvent.success, true⟩

/-- C2 counterexample: a malformed structured payload received while
idle is not dropped with the session staying in AWAITING_START — the
idle loop's `except Exception` at main.py line 85 logs and returns, so
the connection is retired and the following start_call is never
processed.  The handler trace ends immediately after the idle phase. -/
theorem c2_malformed_not_dropped_counterexample :
    idleRun scnC2.idleEvents = IdleOutcome.errored ∧
    idleRun scnC2.idleEvents ≠ IdleOutcome.gotStart ∧
    endpointTrace scnC2 =
      [Action.admitConn "conn-2", Action.acceptConn, Action.enterIdle,
       Action.retireConn "conn-2"] := by
  refine ⟨by decide, by decide, ?_⟩
  simp [endpointTrace, scnC2, idleRun]

/-- C2 amended: a malformed structured payload never escapes the
connection handler as an uncaught exception, but it does end the
session: while idle it makes the handler log and return (the connection
is retired, and later events are never read); during STREAMING it kills
the uplink task immediately (nothing further is recorded or forwarded),
which surfaces as a task failure, and the handler still finalizes and
retires the connection. -/
theorem c2_malformed_terminates_session :
    (∀ evs : List ClientEvent,
       idleRun (ClientEvent.textMsg TextMsg.malformed :: evs) = IdleOutcome.errored) ∧
    (∀ evs : List ClientEvent,
       uplinkRun (ClientEvent.textMsg TextMsg.malformed :: evs) =
         ⟨[], [], UplinkExit.taskError, [ClientEvent.textMsg TextMsg.malformed]⟩) ∧
    (∀ s : Scenario, s.acceptOk = true →
       idleRun s.idleEvents = IdleOutcome.errored →
       endpointTrace s =
         [Action.admitConn s.cid, Action.acceptConn, Action.enterIdle,
          Action.retireConn s.cid]) := by
  refine ⟨fun evs => rfl, fun evs => rfl, fun s hA hI => ?_⟩
  simp [endpointTrace, hA, hI]

/-- Witness for c2_malformed_terminates_session at concrete inputs. -/
theorem c2_malformed_terminates_session_witness :
    idleRun [ClientEvent.textMsg TextMsg.malformed] = IdleOutcome.errored ∧
    uplinkRun [ClientEvent.textMsg TextMsg.malformed] =
      ⟨[], [], UplinkExit.taskError, [ClientEvent.textMsg TextMsg.malformed]⟩ ∧
    (scnC2.acceptOk = true ∧ idleRun scnC2.idleEvents = IdleOutcome.errored ∧
     endpointTrace scnC2 =
       [Action.admitConn scnC2.cid, Action.acceptConn, Action.enterIdle,
        Action.retireConn scnC2.cid]) :=
  ⟨c2_malformed_terminates_session.1 [], c2_malformed_terminates_session.2.1 [],
   rfl, by decide,
   c2_malformed_terminates_session.2.2 scnC2 rfl (by decide)⟩

/-- Scenario in which the upstream connect at main.py line 126 raises. -/
def scnC3 : Scenario :=
  ⟨"conn-3", "call-3", true,
   [ClientEvent.textMsg (TextMsg.structuredMsg (some "start_call") none)],
   ⟨2026, 10, 12⟩, none, true, false, PumpEnd.cleanEnd,
   false, GcsEvent.success, GcsEvent.success, true⟩

/-- C3 counterexample: when the upstream connect fails, Recording Sink
files HAVE already been created (wave.open runs at main.py lines 105-108
before the connect at line 126), and the handler does not return to
AWAITING_START: the trace shows both openSink actions and only the
single initial enterIdle, ending with the connection retired. -/
theorem c3_partial_construction_counterexample :
    countA (isOpenSink .user) (endpointTrace scnC3) = 1 ∧
    countA (isOpenSink .gemini) (endpointTrace scnC3) = 1 ∧
    countA isConnectUp (endpointTrace scnC3) = 0 ∧
    countA isEnterIdle (endpointTrace scnC3) = 1 ∧
    (endpointTrace scnC3).getLast? = some (Action.retireConn "conn-3") := by
  decide

/-- C3 amended: the two Recording Sinks are created strictly before the
Upstream Session Handle is opened, so on connect failure the sink files
exist without a handle — partial construction is observable.  The
unconditional finalization still closes both sinks exactly once (they
are not left open), but the connection then closes instead of returning
to AWAITING_START. -/
theorem c3_sinks_created_before_connect (s : Scenario)
    (hA : s.acceptOk = true) (hI : idleRun s.idleEvents = .gotStart)
    (hS : s.sinkOpenOk = true) (hC : s.connectOk = false) :
    countA (isOpenSink .user) (endpointTrace s) = 1 ∧
    countA (isOpenSink .gemini) (endpointTrace s) = 1 ∧
    countA isConnectUp (endpointTrace s) = 0 ∧
    countA (isCloseSink .user) (endpointTrace s) = 1 ∧
    countA (isCloseSink .gemini) (endpointTrace s) = 1 ∧
    countA isEnterIdle (endpointTrace s) = 1 ∧
    countA isRetireConn (endpointTrace s) = 1 := by
  have hf := finalize_counts s
  have hz := aux_zero_counts s
  unfold endpointTrace
  rw [hA, hI, hS]
  simp only [countA] at *
  simp [streamTrace, hC, List.countP_append, List.countP_cons,
        isOpenSink, isConnectUp, isCloseSink, isEnterIdle, isRetireConn,
        hf.1, hf.2.1, hz.2.1, hz.2.2.2.1, hz.2.2.2.2.2.1,
        hz.2.2.2.2.2.2.2.1, hz.2.2.2.2.2.2.2.2.2.1, hz.2.2.2.2.2.2.2.2.2.2]

/-- Witness for c3_sinks_created_before_connect at scnC3. -/
theorem c3_sinks_created_before_connect_witness :
    scnC3.acceptOk = true ∧ idleRun scnC3.idleEvents = .gotStart ∧
    scnC3.sinkOpenOk = true ∧ scnC3.connectOk = false ∧
    (countA (isOpenSink .user) (endpointTrace scnC3) = 1 ∧
     countA (isOpenSink .gemini) (endpointTrace scnC3) = 1 ∧
     countA isConnectUp (endpointTrace scnC3) = 0 ∧
     countA (isCloseSink .user) (endpointTrace scnC3) = 1 ∧
     countA (isCloseSink .gemini) (endpointTrace scnC3) = 1 ∧
     countA isEnterIdle (endpointTrace scnC3) = 1 ∧
     countA isRetireConn (endpointTrace scnC3) = 1) :=
  ⟨rfl, by decide, rfl, rfl,
   c3_sinks_created_before_connect scnC3 rfl (by decide) rfl rfl⟩

/-- Scenario of a fully successful call session. -/
def scnC4 : Scenario :=
  ⟨"conn-4", "call-4", true,
   [ClientEvent.textMsg (TextMsg.structuredMsg (some "start_call") none)],
   ⟨2026, 10, 12⟩, none, true, true, PumpEnd.cleanEnd,
   false, GcsEvent.success, GcsEvent.success, true⟩

/-- C4 counterexample: after a successful session finalizes, the
controller does NOT return to AWAITING_START on the same connection —
the trace of a complete successful call contains exactly one enterIdle
(the initial one), and ends by retiring the connection: the inner
try/finally at main.py lines 125-215 is the last statement of the outer
try, so the handler returns after finalization. -/
theorem c4_no_return_to_idle_counterexample :
    countA isRetireSession (endpointTrace scnC4) = 1 ∧
    countA isEnterIdle (endpointTrace scnC4) = 1 ∧
    (endpointTrace scnC4).getLast? = some (Action.retireConn "conn-4") := by
  decide

/-- C4 amended: a Connection hosts at most one Call Session: the handler
enters the AWAITING_START read loop at most once and registers at most
one session; after finalization it terminates (no path loops back). -/
theorem c4_single_session_per_connection (s : Scenario) :
    countA isEnterIdle (endpointTrace s) ≤ 1 ∧
    countA isRegisterSession (endpointTrace s) ≤ 1 := by
  have hz := aux_zero_counts s
  unfold endpointTrace
  simp only [countA] at *
  cases h1 : s.acceptOk <;>
  cases h2 : idleRun s.idleEvents <;>
  cases h3 : s.sinkOpenOk <;>
  simp [List.countP_append, List.countP_cons, isEnterIdle, isRegisterSession,
        hz.1, hz.2.1, hz.2.2.1, hz.2.2.2.1]

theorem upload_to_gcs_true_iff (ok : Bool) (bn : Option String) (ev : GcsEvent) :
    upload_to_gcs ok bn ev = true ↔
      (ok = true ∧ bucketTruthy bn = true ∧ ev = GcsEvent.success) := by
  unfold upload_to_gcs
  cases ok <;> cases hb : bucketTruthy bn <;> cases ev <;> simp [hb]

/-- C5: during finalization with persistence configured, each local
recording file is deleted if and only if its own dispatch returns
success; both dispatches are attempted exactly once regardless of the
other's outcome; and `upload_to_gcs` reports success only when the
client and bucket are configured and the guarded upload does not raise
(any caught exception yields False, so the file is left in place). -/
theorem c5_delete_iff_dispatch_success (s : Scenario)
    (hA : s.acceptOk = true) (hI : idleRun s.idleEvents = .gotStart)
    (hS : s.sinkOpenOk = true) (hB : bucketTruthy s.gcsBucket = true) :
    (countA (isRemove .user) (endpointTrace s) = 1 ↔
       upload_to_gcs s.gcsClientOk s.gcsBucket s.userGcsEv = true) ∧
    (countA (isRemove .gemini) (endpointTrace s) = 1 ↔
       upload_to_gcs s.gcsClientOk s.gcsBucket s.geminiGcsEv = true) ∧
    countA (isDispatch .user) (endpointTrace s) = 1 ∧
    countA (isDispatch .gemini) (endpointTrace s) = 1 ∧
    (∀ (ok : Bool) (bn : Option String) (ev : GcsEvent),
       upload_to_gcs ok bn ev = true ↔
         (ok = true ∧ bucketTruthy bn = true ∧ ev = GcsEvent.success)) := by
  refine ?_
  unfold endpointTrace streamTrace finalizeTrace
  rw [hA, hI, hS]
  simp only [countA]
  cases hc : s.connectOk <;> cases hp : s.pumpEnd <;>
  cases hu : upload_to_gcs s.gcsClientOk s.gcsBucket s.userGcsEv <;>
  cases hg : upload_to_gcs s.gcsClientOk s.gcsBucket s.geminiGcsEv <;>
  simp [hB, isRemove, isDispatch, List.countP_append, List.countP_cons,
        upload_to_gcs_true_iff]

/-- Scenario with persistence configured where the user upload succeeds
and the provider upload fails with an API error. -/
def scnC5 : Scenario :=
  ⟨"conn-5", "call-5", true,
   [ClientEvent.textMsg (TextMsg.structuredMsg (some "start_call") none)],
   ⟨2026, 10, 12⟩, some "bucket", true, true, PumpEnd.cleanEnd,
   true, GcsEvent.success, GcsEvent.apiError, true⟩

/-- Witness for c5_delete_iff_dispatch_success at scnC5. -/
theorem c5_delete_iff_dispatch_success_witness :
    scnC5.acceptOk = true ∧ idleRun scnC5.idleEvents = .gotStart ∧
    scnC5.sinkOpenOk = true ∧ bucketTruthy scnC5.gcsBucket = true ∧
    ((countA (isRemove .user) (endpointTrace scnC5) = 1 ↔
        upload_to_gcs scnC5.gcsClientOk scnC5.gcsBucket scnC5.userGcsEv = true) ∧
     (countA (isRemove .gemini) (endpointTrace scnC5) = 1 ↔
        upload_to_gcs scnC5.gcsClientOk scnC5.gcsBucket scnC5.geminiGcsEv = true) ∧
     countA (isDispatch .user) (endpointTrace scnC5) = 1 ∧
     countA (isDispatch .gemini) (endpointTrace scnC5) = 1 ∧
     (∀ (ok : Bool) (bn : Option String) (ev : GcsEvent),
        upload_to_gcs ok bn ev = true ↔
          (ok = true ∧ bucketTruthy bn = true ∧ ev = GcsEvent.success))) :=
  ⟨rfl, by decide, rfl, by decide,
   c5_delete_iff_dispatch_success scnC5 rfl (by decide) rfl (by decide)⟩

theorem uplink_sink_eq : ∀ evs : List ClientEvent,
    (uplinkRun evs).sink = ((uplinkRun evs).consumed.filterMap binPayload).flatten
  | [] => by simp [uplinkRun]
  | e :: rest => by
      have ih := uplink_sink_eq rest
      cases e with
      | binaryMsg d => simp [uplinkRun, binPayload, ih]
      | textMsg m =>
          cases m with
          | malformed => simp [uplinkRun, binPayload]
          | structuredMsg ty payload =>
              simp only [uplinkRun]
              by_cases h1 : ty = some "video_frame"
              · cases payload <;> simp [h1, binPayload, ih]
              · by_cases h2 : ty = some "audio_stream_end" <;>
                  simp [h1, h2, binPayload, ih]
      | disconnect => simp [uplinkRun, binPayload]
      | recvError => simp [uplinkRun, binPayload]

theorem unitAudio_eq (u : RespUnit) : unitAudio u = audioPayload u := by
  unfold unitAudio audioPayload
  cases u.audioData with
  | none => simp
  | some d => cases d <;> simp

theorem processUnits_sink (units : List RespUnit) :
    (processUnits units).2.1 = (units.map audioPayload).flatten := by
  induction units with
  | nil => simp [processUnits]
  | cons u r ih => simp [processUnits, unitAudio_eq, ih]

theorem downlink_sink_eq (turns : List (List RespUnit)) :
    (downlinkRun turns).sink = (turns.flatten.map audioPayload).flatten := by
  induction turns with
  | nil => simp [downlinkRun]
  | cons t r ih => simp [downlinkRun, processUnits_sink, ih]

/-- C6: for each direction, the bytes written to that direction's
Recording Sink equal, byte for byte and in arrival order, the
concatenation of the raw payloads of the binary frames received on that
direction: the client binary frames consumed by the uplink task for the
user sink, and the (audio-bearing) upstream response units for the
provider sink. -/
theorem c6_sink_bytes_identity :
    (∀ evs : List ClientEvent,
       (uplinkRun evs).sink =
         ((uplinkRun evs).consumed.filterMap binPayload).flatten) ∧
    (∀ turns : List (List RespUnit),
       (downlinkRun turns).sink = (turns.flatten.map audioPayload).flatten) :=
  ⟨uplink_sink_eq, downlink_sink_eq⟩

theorem chunkTexts_append (l1 l2 : List OutMsg) :
    chunkTexts (l1 ++ l2) = chunkTexts l1 ++ chunkTexts l2 := by
  induction l1 with
  | nil => simp [chunkTexts]
  | cons m r ih => cases m <;> simp [chunkTexts, ih]

theorem chunkTexts_unitMsgs (u : RespUnit) : chunkTexts (unitMsgs u) = fragList u := by
  unfold unitMsgs fragList
  cases u.userT with
  | none =>
      cases u.audioData with
      | none =>
          cases u.outT with
          | none => simp [chunkTexts]
          | some t => by_cases h : t = "" <;> simp [h, chunkTexts]
      | some d =>
          cases u.outT with
          | none => by_cases hd : d = [] <;> simp [hd, chunkTexts]
          | some t =>
              by_cases h : t = "" <;> by_cases hd : d = [] <;>
                simp [h, hd, chunkTexts]
  | some ut =>
      by_cases hu : ut = "" <;>
      cases u.audioData with
      | none =>
          cases u.outT with
          | none => simp [hu, chunkTexts]
          | some t => by_cases h : t = "" <;> simp [h, hu, chunkTexts]
      | some d =>
          cases u.outT with
          | none => by_cases hd : d = [] <;> simp [hu, hd, chunkTexts]
          | some t =>
              by_cases h : t = "" <;> by_cases hd : d = [] <;>
                simp [h, hu, hd, chunkTexts]

theorem processUnits_chunks (units : List RespUnit) :
    chunkTexts (processUnits units).1 = turnFrags units := by
  induction units with
  | nil => simp [processUnits, chunkTexts, turnFrags]
  | cons u r ih =>
      simp [processUnits, chunkTexts_append, chunkTexts_unitMsgs, ih, turnFrags]

theorem unitFrag_foldr (u : RespUnit) (x : String) :
    unitFrag u ++ x = (fragList u).foldr (· ++ ·) x := by
  unfold unitFrag fragList
  cases u.outT with
  | none => simp
  | some t => by_cases h : t = "" <;> simp [h]

theorem processUnits_acc (units : List RespUnit) :
    (processUnits units).2.2 = turnConcat units := by
  unfold turnConcat
  induction units with
  | nil => simp [processUnits, turnFrags]
  | cons u r ih =>
      simp only [processUnits, ih, turnFrags, List.map_cons, List.flatten_cons,
        List.foldr_append]
      rw [unitFrag_foldr]

/-- C8: provider transcript fragments are sent to the client one
gemini_chunk message per response fragment — the texts of the sent
chunks are exactly the individual fragments in order, never a
concatenation — while the fragments are concatenated only into the
end-of-turn summary log line, one per completed response cycle whose
accumulator (reset at the start of each cycle) ended non-empty. -/
theorem c8_transcript_chunks_incremental (turns : List (List RespUnit)) :
    chunkTexts (downlinkRun turns).sent = (turns.map turnFrags).flatten ∧
    (downlinkRun turns).logs =
      turns.filterMap
        (fun t => if turnConcat t = "" then none else some (turnConcat t).trim) := by
  induction turns with
  | nil => simp [downlinkRun, chunkTexts]
  | cons t r ih =>
      refine ⟨?_, ?_⟩
      · simp [downlinkRun, chunkTexts_append, processUnits_chunks, ih.1]
      · simp only [downlinkRun, List.filterMap_cons, processUnits_acc, ih.2]
        by_cases h : turnConcat t = "" <;> simp [h]

/-- C10: a binary audio frame received during STREAMING is forwarded to
the upstream handle as the base64 text encoding of its raw bytes with
mime type audio/pcm;rate=16000 (decoding that text recovers exactly the
raw bytes), while the Recording Sink receives the raw bytes themselves;
a video_frame payload is forwarded unmodified with mime image/jpeg. -/
theorem c10_base64_forwarding :
    (∀ (d : List Byte) (evs : List ClientEvent),
       (uplinkRun (ClientEvent.binaryMsg d :: evs)).sent =
         ⟨b64encodeStr d, "audio/pcm;rate=16000"⟩ :: (uplinkRun evs).sent ∧
       (uplinkRun (ClientEvent.binaryMsg d :: evs)).sink =
         d ++ (uplinkRun evs).sink) ∧
    (∀ d : List Byte, b64decodeStr (b64encodeStr d) = d.map Fin.val) ∧
    (∀ (p : String) (evs : List ClientEvent),
       (uplinkRun
         (ClientEvent.textMsg (TextMsg.structuredMsg (some "video_frame") (some p))
           :: evs)).sent = ⟨p, "image/jpeg"⟩ :: (uplinkRun evs).sent) := by
  refine ⟨fun d evs => ⟨rfl, rfl⟩, fun d => ?_, fun p evs => by simp [uplinkRun]⟩
  unfold b64decodeStr b64encodeStr
  exact b64_roundtrip d

/-! ## Registry behaviour -/

theorem runReg_stream (s : Scenario) (st : RegState) :
    runReg st (streamTrace s) = st := by
  unfold streamTrace runReg
  cases s.connectOk <;> cases s.pumpEnd <;> simp [applyAction]

theorem runReg_finalize (s : Scenario) (st : RegState) :
    runReg st (finalizeTrace s) = ⟨st.conns, st.gems.erase s.sid⟩ := by
  unfold finalizeTrace runReg
  cases hu : upload_to_gcs s.gcsClientOk s.gcsBucket s.userGcsEv <;>
  cases hg : upload_to_gcs s.gcsClientOk s.gcsBucket s.geminiGcsEv <;>
  cases hb : bucketTruthy s.gcsBucket <;>
  simp [applyAction]

/-- Set discard is idempotent: retiring an id twice equals retiring it
once (ACTIVE_GEMINI_SESSIONS.discard semantics). -/
theorem retire_idempotent (st : RegState) (i : String) :
    applyAction (applyAction st (.retireSession i)) (.retireSession i) =
      applyAction st (.retireSession i) := by
  simp [applyAction, Finset.erase_idem]

/-- When the two wave.open calls succeed and the handler completes, both
registries return to their prior contents (fresh ids assumed, as the
uuid4-derived identifiers are). -/
theorem registry_baseline (s : Scenario) (init : RegState)
    (hA : s.acceptOk = true) (hS : s.sinkOpenOk = true)
    (hW : idleRun s.idleEvents ≠ .stillWaiting)
    (hc : s.cid ∉ init.conns) (hg : s.sid ∉ init.gems) :
    runReg init (endpointTrace s) = init := by
  unfold endpointTrace
  rw [hA, hS]
  cases hi : idleRun s.idleEvents with
  | stillWaiting => exact absurd hi hW
  | disconnected => simp [runReg, applyAction, Finset.erase_insert hc]
  | errored => simp [runReg, applyAction, Finset.erase_insert hc]
  | gotStart =>
      simp only [runReg, Bool.not_true, Bool.false_eq_true, if_false,
        List.singleton_append, List.cons_append, List.append_assoc,
        List.foldl_append, List.foldl_cons, List.foldl_nil]
      have hpre : applyAction (applyAction (applyAction (applyAction (applyAction
          (applyAction init (.admitConn s.cid)) .acceptConn) .enterIdle)
          (.registerSession s.sid)) (.openSink .user userFmt))
          (.openSink .gemini geminiFmt) =
          ⟨insert s.cid init.conns, insert s.sid init.gems⟩ := by
        simp [applyAction]
      rw [hpre]
      rw [show ∀ st : RegState, List.foldl applyAction st (streamTrace s) = st from
        fun st => runReg_stream s st]
      rw [show ∀ st : RegState, List.foldl applyAction st (finalizeTrace s) =
          ⟨st.conns, st.gems.erase s.sid⟩ from fun st => runReg_finalize s st]
      simp only [applyAction]
      rw [Finset.erase_insert hc, Finset.erase_insert hg]

/-- Scenario in which the client starts a call but wave.open raises at
main.py line 105 (for example the recordings directory was removed or
the disk is full). -/
def scnC7 : Scenario :=
  ⟨"conn-7", "call-7", true,
   [ClientEvent.textMsg (TextMsg.structuredMsg (some "start_call") none)],
   ⟨2026, 10, 12⟩, none, false, true, PumpEnd.cleanEnd,
   false, GcsEvent.success, GcsEvent.success, true⟩

/-- C7 failing run: ACTIVE_GEMINI_SESSIONS.add runs at main.py line 91,
before the try at line 125 whose finally (line 197) is the only place
the session id is discarded.  When wave.open raises at line 105, the
exception reaches the handler-level except/finally (lines 219-227),
which retires only the connection id: the session id is registered,
never retired, and remains in the registry after the handler completes,
so the session counter does not return to its prior value. -/
theorem c7_session_registry_leak :
    countA isRegisterSession (endpointTrace scnC7) = 1 ∧
    countA isRetireSession (endpointTrace scnC7) = 0 ∧
    countA isRetireConn (endpointTrace scnC7) = 1 ∧
    runReg ⟨∅, ∅⟩ (endpointTrace scnC7) = ⟨∅, {"call-7"}⟩ ∧
    runReg ⟨∅, ∅⟩ (endpointTrace scnC7) ≠ ⟨∅, ∅⟩ := by
  decide

/-- C9: the two Recording Sinks are opened with the fixed formats
mono 16-bit at 16 kHz (user) and mono 16-bit at 24 kHz (provider), and
when persistence is configured the dispatch destinations follow the
convention calls/(year)/(month)/(day)/(session-id)/user.wav and
.../gemini.wav with zero-padded date components. -/
theorem c9_formats_and_blob_names (s : Scenario)
    (hA : s.acceptOk = true) (hI : idleRun s.idleEvents = .gotStart)
    (hS : s.sinkOpenOk = true) (hB : bucketTruthy s.gcsBucket = true) :
    countA (fun a => a == Action.openSink Dir.user (SinkFormat.mk 1 2 16000))
      (endpointTrace s) = 1 ∧
    countA (fun a => a == Action.openSink Dir.gemini (SinkFormat.mk 1 2 24000))
      (endpointTrace s) = 1 ∧
    blobDestOf s Dir.user =
      "calls/" ++ pad4 s.date.year ++ "/" ++ pad2 s.date.month ++ "/" ++
        pad2 s.date.day ++ "/" ++ s.sid ++ "/" ++ "user.wav" ∧
    blobDestOf s Dir.gemini =
      "calls/" ++ pad4 s.date.year ++ "/" ++ pad2 s.date.month ++ "/" ++
        pad2 s.date.day ++ "/" ++ s.sid ++ "/" ++ "gemini.wav" ∧
    countA (fun a => a == Action.dispatch Dir.user (blobDestOf s Dir.user)
        (upload_to_gcs s.gcsClientOk s.gcsBucket s.userGcsEv))
      (endpointTrace s) = 1 ∧
    countA (fun a => a == Action.dispatch Dir.gemini (blobDestOf s Dir.gemini)
        (upload_to_gcs s.gcsClientOk s.gcsBucket s.geminiGcsEv))
      (endpointTrace s) = 1 := by
  refine ?_
  unfold endpointTrace streamTrace finalizeTrace
  rw [hA, hI, hS]
  simp only [countA]
  cases hc : s.connectOk <;> cases hp : s.pumpEnd <;>
  cases hu : upload_to_gcs s.gcsClientOk s.gcsBucket s.userGcsEv <;>
  cases hg : upload_to_gcs s.gcsClientOk s.gcsBucket s.geminiGcsEv <;>
  simp [hB, userFmt, geminiFmt, List.countP_append, List.countP_cons,
        beq_iff_eq, blobDestOf, blobFolderOf]

/-- Witness for c9_formats_and_blob_names at scnC5 (persistence
configured). -/
theorem c9_formats_and_blob_names_witness :
    scnC5.acceptOk = true ∧ idleRun scnC5.idleEvents = .gotStart ∧
    scnC5.sinkOpenOk = true ∧ bucketTruthy scnC5.gcsBucket = true ∧
    (countA (fun a => a == Action.openSink Dir.user (SinkFormat.mk 1 2 16000))
       (endpointTrace scnC5) = 1 ∧
     countA (fun a => a == Action.openSink Dir.gemini (SinkFormat.mk 1 2 24000))
       (endpointTrace scnC5) = 1 ∧
     blobDestOf scnC5 Dir.user =
       "calls/" ++ pad4 scnC5.date.year ++ "/" ++ pad2 scnC5.date.month ++ "/" ++
         pad2 scnC5.date.day ++ "/" ++ scnC5.sid ++ "/" ++ "user.wav" ∧
     blobDestOf scnC5 Dir.gemini =
       "calls/" ++ pad4 scnC5.date.year ++ "/" ++ pad2 scnC5.date.month ++ "/" ++
         pad2 scnC5.date.day ++ "/" ++ scnC5.sid ++ "/" ++ "gemini.wav" ∧
     countA (fun a => a == Action.dispatch Dir.user (blobDestOf scnC5 Dir.user)
         (upload_to_gcs scnC5.gcsClientOk scnC5.gcsBucket scnC5.userGcsEv))
       (endpointTrace scnC5) = 1 ∧
     countA (fun a => a == Action.dispatch Dir.gemini (blobDestOf scnC5 Dir.gemini)
         (upload_to_gcs scnC5.gcsClientOk scnC5.gcsBucket scnC5.geminiGcsEv))
       (endpointTrace scnC5) = 1) :=
  ⟨rfl, by decide, rfl, by decide,
   c9_formats_and_blob_names scnC5 rfl (by decide) rfl (by decide)⟩

end AudioRelay
